import Mathlib

/-!
Verification development for the NSE swing-trade recommendation system.

The embedded code comes from:
  * src/analysis/technical_analyzer.py   (generate_signals)
  * src/analysis/fundamental_analyzer.py (analyze_fundamentals)
  * src/analysis/sentiment_analyzer.py   (analyze_article, analyze_news_collection)
  * src/prediction/trading_predictor.py  (generate_recommendation,
    _calculate_price_targets, _assess_risk, _suggest_position_size)

Modelling conventions:
  * Python floats are modelled as exact rationals (ℚ).  All decision logic
    in the sources is piecewise rational arithmetic with comparisons, so the
    branch structure is preserved exactly; only round-off in the last binary
    digits of IEEE doubles is abstracted away.
  * Python dict lookups with a default, `d.get(k, v)`, on typed inputs are
    modelled as `Option` fields with `Option.getD`.
  * External numeric library outputs that the code merely consumes
    (VADER/TextBlob polarity scores, the annualized-volatility float
    `returns.std() * np.sqrt(252)`, an irrational-valued libm computation)
    are taken as explicit numeric parameters, exactly as the spec classifies
    them ("the core consumes their output values, not their computation").
  * Python `round(x, k)` is modelled as exact decimal rounding of the
    rational value (`roundTo`).
  * `try/except` blocks are modelled with `Except`/explicit guard branches:
    the guard condition is the faithful translation of the statement in the
    `try` body that raises.
-/

namespace StockSwing

/-- Python `round(x, k)` modelled over ℚ: round to `k` decimal places.
Lean's `round` is round-half-up while CPython rounds the underlying binary
double; no claim in this development evaluates `round` at an exact tie. -/
def roundTo (k : ℕ) (x : ℚ) : ℚ := (round (x * 10 ^ k) : ℚ) / 10 ^ k

/-! ## Technical Signal Summarizer — src/analysis/technical_analyzer.py -/

/-- Indicator mapping consumed by `generate_signals` (lines 180-187).
`none` models an absent dictionary key, which the source replaces with the
default of the corresponding `indicators.get(key, default)` call. -/
structure IndicatorSet where
  rsi : Option ℚ := none
  macd_diff : Option ℚ := none
  trend : Option String := none
  price_vs_sma20 : Option ℚ := none
  volume_ratio : Option ℚ := none
  current_price : Option ℚ := none
  bb_upper : Option ℚ := none
  bb_lower : Option ℚ := none
deriving Repr, DecidableEq

/-- Result dictionary of `generate_signals` (lines 171-177). -/
structure TechnicalSignals where
  buy_signals : ℕ
  sell_signals : ℕ
  neutral_signals : ℕ
  signal_strength : ℚ
  reasoning : List String
deriving Repr, DecidableEq

/-- Embedding of `TechnicalAnalyzer.generate_signals` (lines 169-243).
Each rule contributes to the running buy/sell/neutral tallies and appends a
reasoning string, in source order; the final `signal_strength` is
`(buy - sell) / total * 100` when `total > 0`, else the initial `0.0`. -/
def generate_signals (ind : IndicatorSet) : TechnicalSignals :=
  let rsi := ind.rsi.getD 50
  let macd_diff := ind.macd_diff.getD 0
  let trend := ind.trend.getD "NEUTRAL"
  let price_vs_sma20 := ind.price_vs_sma20.getD 0
  let volume_ratio := ind.volume_ratio.getD 1
  let current_price := ind.current_price.getD 0
  let bb_upper := ind.bb_upper.getD 0
  let bb_lower := ind.bb_lower.getD 0
  -- RSI signals (lines 190-197)
  let (b1, s1, n1, r1) : ℕ × ℕ × ℕ × List String :=
    if rsi < 30 then (1, 0, 0, ["RSI indicates oversold condition"])
    else if rsi > 70 then (0, 1, 0, ["RSI indicates overbought condition"])
    else (0, 0, 1, [])
  -- MACD signals (lines 200-205); no neutral increment in the non-trigger case
  let (b2, s2, r2) : ℕ × ℕ × List String :=
    if macd_diff > 0 then (1, 0, ["MACD shows bullish momentum"])
    else if macd_diff < 0 then (0, 1, ["MACD shows bearish momentum"])
    else (0, 0, [])
  -- Trend signals (lines 208-213)
  let (b3, s3, r3) : ℕ × ℕ × List String :=
    if trend = "UPTREND" then (1, 0, ["Price is in uptrend"])
    else if trend = "DOWNTREND" then (0, 1, ["Price is in downtrend"])
    else (0, 0, [])
  -- Price vs SMA signals (lines 216-221)
  let (b4, s4, r4) : ℕ × ℕ × List String :=
    if price_vs_sma20 > 2 then (1, 0, ["Price is above 20-day SMA"])
    else if price_vs_sma20 < -2 then (0, 1, ["Price is below 20-day SMA"])
    else (0, 0, [])
  -- Volume confirmation (lines 224-225): annotation only, no tally change
  let r5 : List String :=
    if volume_ratio > 1.5 then ["High volume confirms price movement"] else []
  -- Bollinger Bands (lines 228-233)
  let (b6, s6, r6) : ℕ × ℕ × List String :=
    if current_price < bb_lower then
      (1, 0, ["Price near lower Bollinger Band (potential bounce)"])
    else if current_price > bb_upper then
      (0, 1, ["Price near upper Bollinger Band (potential reversal)"])
    else (0, 0, [])
  let buy := b1 + b2 + b3 + b4 + b6
  let sell := s1 + s2 + s3 + s4 + s6
  let neutral := n1
  -- signal strength (lines 236-238)
  let total := buy + sell + neutral
  let strength : ℚ :=
    if total > 0 then (((buy : ℚ) - (sell : ℚ)) / (total : ℚ)) * 100 else 0
  { buy_signals := buy, sell_signals := sell, neutral_signals := neutral,
    signal_strength := strength,
    reasoning := r1 ++ r2 ++ r3 ++ r4 ++ r5 ++ r6 }

/-! ## Sentiment Aggregator — src/analysis/sentiment_analyzer.py -/

/-- Per-article polarity outputs of the two external estimators (VADER
compound and TextBlob polarity), consumed by `analyze_article` line 60. -/
structure ArticleScores where
  vader : ℚ
  textblob : ℚ
deriving Repr, DecidableEq

/-- Embedding of the combined score computed by `analyze_article` (line 60):
the average of the two estimator outputs. -/
def analyze_article_combined (a : ArticleScores) : ℚ := (a.vader + a.textblob) / 2

/-- Per-category entry of the result of `analyze_news_collection`
(lines 103-108); article records are presentational and omitted. -/
structure CategoryResult where
  average_sentiment : ℚ
  count : ℕ
deriving Repr, DecidableEq

/-- Result of `analyze_news_collection` (lines 77-83); the per-article lists
and the `sentiment_breakdown` histogram are presentational and omitted. -/
structure NewsSentimentResult where
  categories : List (String × CategoryResult)
  overall_sentiment : ℚ
deriving Repr, DecidableEq

/-- Loop body accumulator for `analyze_news_collection`:
(categories so far, total_sentiment, total_count). -/
def newsStep (acc : List (String × CategoryResult) × ℚ × ℕ)
    (entry : String × List ArticleScores) :
    List (String × CategoryResult) × ℚ × ℕ :=
  let (cats, total_sentiment, total_count) := acc
  let (news_type, articles) := entry
  -- lines 90-91: `if not articles: continue`
  if articles.isEmpty then acc
  else
    let type_sentiments := articles.map analyze_article_combined
    -- line 102
    let avg_sentiment := type_sentiments.sum / (type_sentiments.length : ℚ)
    -- lines 103-111
    (cats ++ [(news_type, { average_sentiment := avg_sentiment,
                            count := articles.length })],
     total_sentiment + avg_sentiment * (type_sentiments.length : ℚ),
     total_count + type_sentiments.length)

/-- Embedding of `SentimentAnalyzer.analyze_news_collection` (lines 75-129):
iterate over the category mapping, skip empty categories, average each
non-empty one, and weight the overall mean by article count
(lines 110-114). -/
def analyze_news_collection (news : List (String × List ArticleScores)) :
    NewsSentimentResult :=
  let acc := news.foldl newsStep ([], 0, 0)
  -- lines 113-114: `overall_sentiment` keeps its initial 0.0 when no articles
  { categories := acc.1,
    overall_sentiment :=
      if 0 < acc.2.2 then acc.2.1 / (acc.2.2 : ℚ) else 0 }

/-! ## Fundamental Scorer — src/analysis/fundamental_analyzer.py -/

/-- Input mapping of `analyze_fundamentals` (lines 29-38 and the later
`fundamental_data.get(...)` calls); `none` models an absent or null ratio. -/
structure FundamentalData where
  pe_ratio : Option ℚ := none
  pb_ratio : Option ℚ := none
  debt_to_equity : Option ℚ := none
  roe : Option ℚ := none
  roa : Option ℚ := none
  profit_margin : Option ℚ := none
  revenue_growth : Option ℚ := none
  earnings_growth : Option ℚ := none
  current_ratio : Option ℚ := none
  quick_ratio : Option ℚ := none
  peg_ratio : Option ℚ := none
  operating_margin : Option ℚ := none
  dividend_yield : Option ℚ := none
  beta : Option ℚ := none
deriving Repr, DecidableEq

inductive Assessment
  | STRONG
  | MODERATE
  | WEAK
  | NEUTRAL
  | ERROR
deriving Repr, DecidableEq

/-- Fields of the `analysis` dict of `analyze_fundamentals` used downstream;
the per-metric records and the strengths/weaknesses string lists are
presentational and omitted. -/
structure FundAnalysis where
  score : ℚ
  overall_assessment : Assessment
deriving Repr, DecidableEq

/-- Points awarded and maximum for one metric: `(points, max_possible)`. -/
def metricContribution (v : Option ℚ) (maxPts : ℚ) (band : ℚ → ℚ) : ℚ × ℚ :=
  match v with
  | none => (0, 0)
  | some x => (band x, maxPts)

/-- P/E band (lines 44-57). -/
def peBand (pe : ℚ) : ℚ :=
  if 10 ≤ pe ∧ pe ≤ 25 then 15
  else if pe < 10 then 10
  else if 25 < pe ∧ pe ≤ 35 then 8
  else 3

/-- P/B band (lines 61-74). -/
def pbBand (pb : ℚ) : ℚ :=
  if 1 ≤ pb ∧ pb ≤ 3 then 10
  else if pb < 1 then 8
  else if 3 < pb ∧ pb ≤ 5 then 5
  else 2

/-- Debt-to-equity band (lines 78-91). -/
def deBand (de : ℚ) : ℚ :=
  if de < 1 then 15
  else if 1 ≤ de ∧ de < 2 then 12
  else if 2 ≤ de ∧ de < 3 then 7
  else 2

/-- ROE band (lines 95-109); the source first forms `roe_pct = roe * 100`. -/
def roeBand (roe : ℚ) : ℚ :=
  let roe_pct := roe * 100
  if roe_pct > 15 then 15
  else if roe_pct > 10 then 12
  else if roe_pct > 5 then 8
  else 3

/-- ROA band (lines 113-124); `roa_pct = roa * 100`. -/
def roaBand (roa : ℚ) : ℚ :=
  let roa_pct := roa * 100
  if roa_pct > 5 then 10
  else if roa_pct > 3 then 8
  else 4

/-- Profit-margin band (lines 128-142); `margin_pct = profit_margin * 100`. -/
def profitMarginBand (m : ℚ) : ℚ :=
  let margin_pct := m * 100
  if margin_pct > 15 then 10
  else if margin_pct > 10 then 8
  else if margin_pct > 5 then 5
  else 2

/-- Revenue-growth band (lines 146-160); `growth_pct = revenue_growth * 100`. -/
def revenueGrowthBand (g : ℚ) : ℚ :=
  let growth_pct := g * 100
  if growth_pct > 15 then 10
  else if growth_pct > 10 then 8
  else if growth_pct > 5 then 5
  else 2

/-- Earnings-growth band (lines 164-178); `growth_pct = earnings_growth * 100`. -/
def earningsGrowthBand (g : ℚ) : ℚ :=
  let growth_pct := g * 100
  if growth_pct > 20 then 10
  else if growth_pct > 10 then 8
  else if growth_pct > 5 then 5
  else 2

/-- Current-ratio band (lines 182-192). -/
def currentRatioBand (c : ℚ) : ℚ :=
  if c > 2 then 5 else if c > 1 then 4 else 1

/-- Quick-ratio band (lines 197-207). -/
def quickRatioBand (q : ℚ) : ℚ :=
  if q > 1.5 then 5 else if q > 1 then 4 else 2

/-- PEG band (lines 212-224). -/
def pegBand (peg : ℚ) : ℚ :=
  if 0 < peg ∧ peg < 1 then 5
  else if 1 ≤ peg ∧ peg ≤ 2 then 4
  else if peg > 2 then 2
  else 1

/-- Operating-margin band (lines 229-243); `margin_pct = operating_margin * 100`. -/
def operatingMarginBand (m : ℚ) : ℚ :=
  let margin_pct := m * 100
  if margin_pct > 20 then 5
  else if margin_pct > 15 then 4
  else if margin_pct > 10 then 3
  else 1

/-- Dividend-yield band (lines 248-261); the raw value is auto-scaled by 100
when it is below 1 (line 250). -/
def dividendYieldBand (dy : ℚ) : ℚ :=
  let yield_pct := if dy < 1 then dy * 100 else dy
  if yield_pct > 3 then 5
  else if yield_pct > 1.5 then 4
  else if yield_pct > 0 then 2
  else 0

/-- Beta band (lines 265-277). -/
def betaBand (b : ℚ) : ℚ :=
  if 0.8 ≤ b ∧ b ≤ 1.2 then 5
  else if b < 0.8 then 4
  else if b > 1.5 then 2
  else 3

/-- The per-metric `(points, max_possible)` contributions of
`analyze_fundamentals`, in source order. -/
def fundContributions (d : FundamentalData) : List (ℚ × ℚ) :=
  [metricContribution d.pe_ratio 15 peBand,
   metricContribution d.pb_ratio 10 pbBand,
   metricContribution d.debt_to_equity 15 deBand,
   metricContribution d.roe 15 roeBand,
   metricContribution d.roa 10 roaBand,
   metricContribution d.profit_margin 10 profitMarginBand,
   metricContribution d.revenue_growth 10 revenueGrowthBand,
   metricContribution d.earnings_growth 10 earningsGrowthBand,
   metricContribution d.current_ratio 5 currentRatioBand,
   metricContribution d.quick_ratio 5 quickRatioBand,
   metricContribution d.peg_ratio 5 pegBand,
   metricContribution d.operating_margin 5 operatingMarginBand,
   metricContribution d.dividend_yield 5 dividendYieldBand,
   metricContribution d.beta 5 betaBand]

/-- Embedding of `FundamentalAnalyzer.analyze_fundamentals` (lines 17-298).

The ROA block's status expression (line 125) reads `roe_pct`, the variable
bound only inside the ROE block (line 97):
`'GOOD' if roe_pct > 3 else 'CAUTION'`.  When `roa` is present but `roe` is
absent this raises `UnboundLocalError`, which the `except Exception` handler
(lines 294-296) turns into `overall_assessment = 'ERROR'` with
`analysis['score']` still at its initial `0.0` (line 20), since the final
score is only assigned at lines 281-284.  That raising condition is the
guard of the first branch below.

On the non-raising path the accumulated points are normalized against the
accumulated `max_possible` (lines 281-284, defaulting to 50.0 when no metric
was present), and lines 287-292 then always overwrite the assessment with
STRONG/MODERATE/WEAK — the initial 'NEUTRAL' (line 25) never survives. -/
def analyze_fundamentals (d : FundamentalData) : FundAnalysis :=
  if d.roa.isSome ∧ d.roe.isNone then
    { score := 0, overall_assessment := .ERROR }
  else
    let contribs := fundContributions d
    let score := (contribs.map Prod.fst).sum
    let max_possible := (contribs.map Prod.snd).sum
    let final : ℚ := if max_possible > 0 then score / max_possible * 100 else 50
    { score := final,
      overall_assessment :=
        if final ≥ 70 then .STRONG
        else if final ≥ 50 then .MODERATE
        else .WEAK }

/-! ## Recommendation Synthesizer — src/prediction/trading_predictor.py -/

inductive Action
  | BUY
  | SELL
  | HOLD
deriving Repr, DecidableEq

inductive RiskLevel
  | LOW
  | MEDIUM
  | HIGH
deriving Repr, DecidableEq

/-- Daily returns, `historical_data['Close'].pct_change().dropna()`
(lines 120 and 177): `(c[i] - c[i-1]) / c[i-1]`, the leading NaN dropped.
Rational division is total (`x / 0 = 0`); pandas instead produces inf/NaN
entries for zero closes, so the model is faithful for positive price
series. -/
def pct_returns (closes : List ℚ) : List ℚ :=
  List.zipWith (fun prev next => (next - prev) / prev) closes closes.tail

/-- Arithmetic mean over ℚ. -/
def listMean (xs : List ℚ) : ℚ := xs.sum / (xs.length : ℚ)

/-- Sample variance with the `ddof = 1` denominator that
`pandas.Series.std()` uses. -/
def sampleVariance (xs : List ℚ) : ℚ :=
  ((xs.map fun x => (x - listMean xs) ^ 2).sum) / ((xs.length : ℚ) - 1)

/-- Embedding of the comparison `returns.std() > c` for `c > 0`
(lines 121/178):  `Series.std()` (ddof = 1) is NaN for fewer than two
returns and a NaN comparison is False in Python; for at least two returns,
`std > c` iff `variance > c²` since both `std` and `c` are nonnegative. -/
def returns_std_gt (closes : List ℚ) (c : ℚ) : Bool :=
  decide (2 ≤ (pct_returns closes).length ∧
          sampleVariance (pct_returns closes) > c ^ 2)

/-- Python truthiness of `indicators.get('atr')` (line 160): the key must be
present and its float value nonzero. -/
def atr_truthy (atr : Option ℚ) : Bool :=
  match atr with
  | some a => decide (a ≠ 0)
  | none => false

/-- The decision step of `generate_recommendation` (lines 57-66): action and
pre-rounding confidence as a function of the weighted score. -/
def decide_action (w : ℚ) : Action × ℚ :=
  if w ≥ 30 then (.BUY, min 95 (50 + |w| * 0.9))
  else if w ≤ -30 then (.SELL, min 95 (50 + |w| * 0.9))
  else (.HOLD, max 30 (50 - |w| * 0.5))

/-- The weighted blend of `generate_recommendation` (lines 49-55):
technical 40%, re-centered damped fundamental 35%, sentiment 25%. -/
def weighted_score_calc (technical_signal_strength fundamental_score
    sentiment_score : ℚ) : ℚ :=
  (technical_signal_strength * 0.40) +
  ((fundamental_score - 50) * 0.70 * 0.35) +
  ((sentiment_score * 100) * 0.25)

/-- Embedding of `TradingPredictor._calculate_price_targets`
(lines 114-150), returning `(target_price, stop_loss)`.

`volatility` stands for the float `returns.std() * np.sqrt(252)` of
line 121, an irrational-valued external numeric computation passed in as a
value; it is only read on the sufficient-history branch.  The `try` body is
total on these typed inputs, so the `except` branch of lines 148-150 is
unreachable here. -/
def calculate_price_targets (current_price weighted_score : ℚ)
    (time_horizon_weeks : ℕ) (closes : List ℚ) (volatility : ℚ) : ℚ × ℚ :=
  -- line 119: `if not historical_data.empty and len(historical_data) > 20:`
  if ¬closes.isEmpty ∧ closes.length > 20 then
    let price_change_pct :=
      (weighted_score / 100) * volatility * ((time_horizon_weeks : ℚ) / 52) * 2
    let target_price := current_price * (1 + price_change_pct)
    let stop_loss :=
      if weighted_score > 0 then current_price * 0.97
      else current_price * 1.03
    (target_price, stop_loss)
  else
    -- default targets if insufficient data (lines 134-144)
    if weighted_score > 0 then (current_price * 1.05, current_price * 0.97)
    else if weighted_score < 0 then (current_price * 0.95, current_price * 1.03)
    else (current_price, current_price * 0.98)

/-- Embedding of `TradingPredictor._assess_risk` (lines 152-190).

The `try` body raises exactly when line 161 divides by zero:
`indicators.get('atr')` is truthy while `indicators.get('current_price', 1)`
yields `0`; the handler (lines 188-190) then returns MEDIUM.  Otherwise the
four risk-factor checks accumulate in source order and lines 181-186 map the
count to a level. -/
def assess_risk (atr ind_current_price : Option ℚ)
    (fundamental_score sentiment : ℚ) (closes : List ℚ) : RiskLevel :=
  if atr_truthy atr ∧ ind_current_price.getD 1 = 0 then
    .MEDIUM
  else
    -- technical risk (lines 159-163)
    let rf1 : ℕ :=
      if atr_truthy atr ∧ atr.getD 0 / ind_current_price.getD 1 > 0.05
      then 1 else 0
    -- fundamental risk (lines 166-168)
    let rf2 : ℕ := rf1 + if fundamental_score < 40 then 1 else 0
    -- sentiment risk (lines 171-173)
    let rf3 : ℕ := rf2 + if |sentiment| > 0.5 then 1 else 0
    -- volatility risk from historical data (lines 176-179)
    let rf4 : ℕ := rf3 + if ¬closes.isEmpty ∧ returns_std_gt closes 0.03
                         then 1 else 0
    if rf4 ≥ 3 then .HIGH
    else if rf4 ≥ 2 then .MEDIUM
    else .LOW

/-- The count of triggered risk factors, stated independently per the spec's
reading of `_assess_risk`: ATR/price ratio above 5%, fundamental score below
40, absolute sentiment above 0.5, historical daily-return standard deviation
above 3%. -/
def countRiskFactors (atr ind_current_price : Option ℚ)
    (fundamental_score sentiment : ℚ) (closes : List ℚ) : ℕ :=
  (if atr_truthy atr ∧ atr.getD 0 / ind_current_price.getD 1 > 0.05
   then 1 else 0) +
  (if fundamental_score < 40 then 1 else 0) +
  (if |sentiment| > 0.5 then 1 else 0) +
  (if ¬closes.isEmpty ∧ returns_std_gt closes 0.03 then 1 else 0)

/-- Embedding of `TradingPredictor._suggest_position_size` (lines 220-236). -/
def suggest_position_size (confidence : ℚ) (risk_level : RiskLevel) : String :=
  match risk_level with
  | .HIGH =>
      if confidence > 70 then "Small position (1-2% of portfolio)"
      else "Very small position (<1% of portfolio)"
  | .MEDIUM =>
      if confidence > 70 then "Moderate position (2-3% of portfolio)"
      else "Small position (1-2% of portfolio)"
  | .LOW =>
      if confidence > 70 then "Normal position (3-5% of portfolio)"
      else "Moderate position (2-3% of portfolio)"

/-- The fields of the `technical_analysis` dict that
`generate_recommendation` and `_assess_risk` read: `signals.signal_strength`
(line 41, default 0.0) and `indicators.atr` / `indicators.current_price`
(lines 159-161). -/
structure TechAnalysisIn where
  signal_strength : Option ℚ := none
  atr : Option ℚ := none
  current_price : Option ℚ := none
deriving Repr, DecidableEq

/-- The fields of the `fundamental_analysis` dict read by the synthesizer:
`score` (line 43, default 50.0); the assessment label feeds only the
reasoning text and is omitted. -/
structure FundAnalysisIn where
  score : Option ℚ := none
deriving Repr, DecidableEq

/-- The field of the `sentiment_analysis` dict read by the synthesizer:
`overall_sentiment` (line 46, default 0.0); the overall label feeds only
the reasoning text and is omitted. -/
structure SentAnalysisIn where
  overall_sentiment : Option ℚ := none
deriving Repr, DecidableEq

/-- Recommendation dictionary built at lines 87-102 on the successful path;
the reasoning string is presentational and omitted. -/
structure Recommendation where
  action : Action
  confidence : ℚ
  target_price : ℚ
  stop_loss : ℚ
  risk_level : RiskLevel
  position_size : String
  time_horizon_weeks : ℕ
  weighted_score : ℚ
  technical_contribution : ℚ
  fundamental_contribution : ℚ
  sentiment_contribution : ℚ
deriving Repr, DecidableEq

/-- What `generate_recommendation` returns: either the full dictionary, or
the degraded dictionary `{action, confidence, error}` built by the `except`
handler (lines 108-112). -/
inductive RecommendationResult
  | ok (r : Recommendation)
  | degraded (action : Action) (confidence : ℚ) (errMsg : String)
deriving Repr, DecidableEq

/-- The `try` body of `generate_recommendation` once the three analysis
dicts have been read successfully (lines 40-104): every step is total on
these typed inputs.  `volatility` is the external annualized-volatility
float forwarded to `_calculate_price_targets`. -/
def recommend_core (tech : TechAnalysisIn) (fund : FundAnalysisIn)
    (sent : SentAnalysisIn) (current_price : ℚ) (time_horizon_weeks : ℕ)
    (closes : List ℚ) (volatility : ℚ) : Recommendation :=
  let technical_signal_strength := tech.signal_strength.getD 0
  let fundamental_score := fund.score.getD 50
  let sentiment_score := sent.overall_sentiment.getD 0
  let sentiment_normalized := sentiment_score * 100
  let weighted_score :=
    weighted_score_calc technical_signal_strength fundamental_score
      sentiment_score
  let (action, confidence) := decide_action weighted_score
  let (target_price, stop_loss) :=
    calculate_price_targets current_price weighted_score time_horizon_weeks
      closes volatility
  let risk_level :=
    assess_risk tech.atr tech.current_price fundamental_score sentiment_score
      closes
  let position_size := suggest_position_size confidence risk_level
  { action := action,
    confidence := roundTo 1 confidence,
    target_price := roundTo 2 target_price,
    stop_loss := roundTo 2 stop_loss,
    risk_level := risk_level,
    position_size := position_size,
    time_horizon_weeks := time_horizon_weeks,
    weighted_score := roundTo 2 weighted_score,
    technical_contribution := roundTo 2 (technical_signal_strength * 0.40),
    fundamental_contribution := roundTo 2 ((fundamental_score - 50) * 0.70 * 0.35),
    sentiment_contribution := roundTo 2 (sentiment_normalized * 0.25) }

/-- The `try` body of `generate_recommendation` including its raising
extraction steps.  The declared `Dict` parameter types are hints only: a
caller may pass `None` for an analysis dict (modelled by `none`), making the
`.get` calls at lines 40, 43 and 46 raise `AttributeError` in source order;
any such exception is the `.error` case. -/
def recommendation_body (tech : Option TechAnalysisIn)
    (fund : Option FundAnalysisIn) (sent : Option SentAnalysisIn)
    (current_price : ℚ) (time_horizon_weeks : ℕ) (closes : List ℚ)
    (volatility : ℚ) : Except String Recommendation :=
  match tech with
  | none => .error "AttributeError: NoneType object has no attribute get (technical_analysis)"
  | some t =>
    match fund with
    | none => .error "AttributeError: NoneType object has no attribute get (fundamental_analysis)"
    | some f =>
      match sent with
      | none => .error "AttributeError: NoneType object has no attribute get (sentiment_analysis)"
      | some s =>
        .ok (recommend_core t f s current_price time_horizon_weeks closes
               volatility)

/-- Embedding of `TradingPredictor.generate_recommendation` (lines 19-112):
run the `try` body; on any exception return the degraded
`{action: HOLD, confidence: 0, error: str(e)}` dict (lines 106-112). -/
def generate_recommendation (tech : Option TechAnalysisIn)
    (fund : Option FundAnalysisIn) (sent : Option SentAnalysisIn)
    (current_price : ℚ) (time_horizon_weeks : ℕ) (closes : List ℚ)
    (volatility : ℚ) : RecommendationResult :=
  match recommendation_body tech fund sent current_price time_horizon_weeks
          closes volatility with
  | .ok r => .ok r
  | .error e => .degraded .HOLD 0 e

/-! ## Claim theorems -/

/-- C1: at the decision step the action and pre-rounding confidence are a
function of `weighted_score` alone, with an inclusive boundary at 30:
`weighted_score ≥ 30` gives BUY with confidence `min 95 (50 + |w| * 0.9)`,
`weighted_score ≤ -30` gives SELL with the same formula, and any value
strictly between -30 and 30 gives HOLD with confidence
`max 30 (50 - |w| * 0.5)`; the synthesized recommendation's action and
confidence come from exactly this decision. -/
theorem c1_decision_boundary :
    (∀ w : ℚ, 30 ≤ w → decide_action w = (Action.BUY, min 95 (50 + |w| * 0.9))) ∧
    (∀ w : ℚ, w ≤ -30 → decide_action w = (Action.SELL, min 95 (50 + |w| * 0.9))) ∧
    (∀ w : ℚ, -30 < w → w < 30 →
      decide_action w = (Action.HOLD, max 30 (50 - |w| * 0.5))) ∧
    (∀ (tech : TechAnalysisIn) (fund : FundAnalysisIn) (sent : SentAnalysisIn)
       (p : ℚ) (wk : ℕ) (closes : List ℚ) (vol : ℚ),
      (recommend_core tech fund sent p wk closes vol).action =
        (decide_action (weighted_score_calc (tech.signal_strength.getD 0)
          (fund.score.getD 50) (sent.overall_sentiment.getD 0))).1 ∧
      (recommend_core tech fund sent p wk closes vol).confidence =
        roundTo 1 (decide_action (weighted_score_calc (tech.signal_strength.getD 0)
          (fund.score.getD 50) (sent.overall_sentiment.getD 0))).2) := by
  refine ⟨?_, ?_, ?_, ?_⟩
  · intro w h
    simp only [decide_action, if_pos (show w ≥ 30 from h)]
  · intro w h
    have h1 : ¬(w ≥ 30) := by linarith
    simp only [decide_action, if_neg h1, if_pos h]
  · intro w h1 h2
    have h3 : ¬(w ≥ 30) := by linarith
    have h4 : ¬(w ≤ -30) := by linarith
    simp only [decide_action, if_neg h3, if_neg h4]
  · intro tech fund sent p wk closes vol
    exact ⟨rfl, rfl⟩

/-- Witness for C1: the boundary value 30 selects BUY with confidence 77,
-30 selects SELL, and 29.999 selects HOLD with confidence 35.0005. -/
theorem c1_decision_boundary_witness :
    decide_action 30 = (Action.BUY, 77) ∧
    decide_action (-30) = (Action.SELL, 77) ∧
    decide_action 29.999 = (Action.HOLD, 35.0005) := by
  obtain ⟨h1, h2, h3, -⟩ := c1_decision_boundary
  refine ⟨?_, ?_, ?_⟩
  · rw [h1 30 (by norm_num), abs_of_nonneg (by norm_num)]
    norm_num [min_def]
  · rw [h2 (-30) (by norm_num), abs_of_nonpos (by norm_num)]
    norm_num [min_def]
  · rw [h3 29.999 (by norm_num) (by norm_num), abs_of_nonneg (by norm_num)]
    norm_num [max_def]

/-- C5: with fewer than 21 closes the fallback price targets are exact:
`weighted_score > 0` gives `(price * 1.05, price * 0.97)`,
`weighted_score < 0` gives `(price * 0.95, price * 1.03)`, and
`weighted_score = 0` gives `(price, price * 0.98)`. -/
theorem c5_price_target_fallback (p w : ℚ) (wk : ℕ) (closes : List ℚ)
    (vol : ℚ) (h : closes.length < 21) :
    (0 < w → calculate_price_targets p w wk closes vol = (p * 1.05, p * 0.97)) ∧
    (w < 0 → calculate_price_targets p w wk closes vol = (p * 0.95, p * 1.03)) ∧
    (w = 0 → calculate_price_targets p w wk closes vol = (p, p * 0.98)) := by
  have hcond : ¬(¬closes.isEmpty ∧ closes.length > 20) := by
    rintro ⟨-, h20⟩
    omega
  refine ⟨fun hw => ?_, fun hw => ?_, fun hw => ?_⟩
  · simp only [calculate_price_targets, if_neg hcond, if_pos hw]
  · have hz : ¬(w > 0) := by linarith
    simp only [calculate_price_targets, if_neg hcond, if_neg hz, if_pos hw]
  · subst hw
    simp only [calculate_price_targets, if_neg hcond]
    norm_num

/-- Witness for C5: concrete fallback targets at price 100 with an empty
history, for positive, negative and zero weighted scores. -/
theorem c5_price_target_fallback_witness :
    calculate_price_targets 100 5 2 [] 0 = (105, 97) ∧
    calculate_price_targets 100 (-5) 2 [] 0 = (95, 103) ∧
    calculate_price_targets 100 0 2 [] 0 = (100, 98) := by
  have ha := (c5_price_target_fallback 100 5 2 [] 0 (by simp)).1 (by norm_num)
  have hb := (c5_price_target_fallback 100 (-5) 2 [] 0 (by simp)).2.1 (by norm_num)
  have hc := (c5_price_target_fallback 100 0 2 [] 0 (by simp)).2.2 rfl
  rw [ha, hb, hc]
  norm_num

/-- C9: any input with a ROA value but no ROE value makes
`analyze_fundamentals` return `overall_assessment = ERROR` with
`score = 0.0` (the ROA status check at line 125 reads the ROE-derived
`roe_pct`, unbound when ROE is absent, and the raised `UnboundLocalError`
is absorbed by the handler at lines 294-296). -/
theorem c9_roa_without_roe (d : FundamentalData) (h1 : d.roa.isSome)
    (h2 : d.roe = none) :
    analyze_fundamentals d = { score := 0, overall_assessment := .ERROR } := by
  have hc : d.roa.isSome ∧ d.roe.isNone := ⟨h1, by simp [h2]⟩
  simp only [analyze_fundamentals, if_pos hc]

/-- Witness for C9: the input holding only `roa = 0.06` fails the whole
fundamental analysis. -/
theorem c9_roa_without_roe_witness :
    analyze_fundamentals { roa := some (6/100) } =
      { score := 0, overall_assessment := .ERROR } :=
  c9_roa_without_roe { roa := some (6/100) } rfl rfl

/-- C2: evaluation of `analyze_fundamentals` at the inputs where it departs
from the claimed normalization.  With only `roa = 0.06` present the claimed
score is `(10/10) * 100 = 100`, but the code returns score 0 with
assessment ERROR (the line-125 slip of C9); with zero metrics the score is
50.0 as claimed, yet the assessment is MODERATE, and no input at all can
produce the assessment NEUTRAL (lines 287-292 always overwrite it). -/
theorem c2_fundamental_normalization_eval :
    analyze_fundamentals { roa := some (6/100) } =
      { score := 0, overall_assessment := .ERROR } ∧
    (((fundContributions { roa := some (6/100) }).map Prod.fst).sum /
      ((fundContributions { roa := some (6/100) }).map Prod.snd).sum) * 100
      = 100 ∧
    analyze_fundamentals {} = { score := 50, overall_assessment := .MODERATE } ∧
    (∀ d : FundamentalData,
      (analyze_fundamentals d).overall_assessment ≠ .NEUTRAL) := by
  refine ⟨rfl, ?_, ?_, ?_⟩
  · norm_num [fundContributions, metricContribution, roaBand]
  · norm_num [analyze_fundamentals, fundContributions, metricContribution]
  · intro d
    simp only [analyze_fundamentals]
    split_ifs <;> simp

/-- C4: the end-to-end scenario: technical signal strength 60, fundamental
score 80 and sentiment 0.3 blend to a weighted score of 38.85, the action is
BUY, and the confidence is `min 95 (50 + 38.85 * 0.9) = 84.965` (stored
rounded to 85.0). -/
theorem c4_end_to_end_scenario :
    weighted_score_calc 60 80 0.3 = 38.85 ∧
    min (95:ℚ) (50 + 38.85 * 0.9) = 84.965 ∧
    (recommend_core { signal_strength := some 60 } { score := some 80 }
      { overall_sentiment := some 0.3 } 100 2 [] 0).weighted_score = 38.85 ∧
    (recommend_core { signal_strength := some 60 } { score := some 80 }
      { overall_sentiment := some 0.3 } 100 2 [] 0).action = .BUY ∧
    (recommend_core { signal_strength := some 60 } { score := some 80 }
      { overall_sentiment := some 0.3 } 100 2 [] 0).confidence = 85 := by
  refine ⟨by norm_num [weighted_score_calc], by norm_num [min_def], ?_, ?_, ?_⟩
  · norm_num [recommend_core, weighted_score_calc, roundTo, round_eq]
  · norm_num [recommend_core, weighted_score_calc, decide_action]
  · have habs : |(777:ℚ)/20| = 777/20 := abs_of_nonneg (by norm_num)
    norm_num [recommend_core, weighted_score_calc, decide_action, min_def,
      roundTo, round_eq, habs]

/-- C6: the risk level is the count of triggered risk factors thresholded:
at least 3 gives HIGH, exactly 2 gives MEDIUM, fewer gives LOW; and the one
exception the assessment body can raise (division by a zero
`indicators.current_price` at line 161) lands in the handler and gives
MEDIUM, never LOW. -/
theorem c6_risk_levels (atr cp : Option ℚ) (f s : ℚ) (closes : List ℚ) :
    ((atr_truthy atr ∧ cp.getD 1 = 0) →
      assess_risk atr cp f s closes = .MEDIUM) ∧
    (¬(atr_truthy atr ∧ cp.getD 1 = 0) →
      ((3 ≤ countRiskFactors atr cp f s closes →
          assess_risk atr cp f s closes = .HIGH) ∧
       (countRiskFactors atr cp f s closes = 2 →
          assess_risk atr cp f s closes = .MEDIUM) ∧
       (countRiskFactors atr cp f s closes < 2 →
          assess_risk atr cp f s closes = .LOW))) := by
  constructor
  · intro hexc
    simp only [assess_risk, if_pos hexc]
  · intro h
    have hbody : assess_risk atr cp f s closes =
        (if countRiskFactors atr cp f s closes ≥ 3 then RiskLevel.HIGH
         else if countRiskFactors atr cp f s closes ≥ 2 then RiskLevel.MEDIUM
         else RiskLevel.LOW) := by
      simp only [assess_risk, countRiskFactors, if_neg h]
    refine ⟨fun h3 => ?_, fun h2 => ?_, fun hlt => ?_⟩
    · rw [hbody, if_pos h3]
    · rw [hbody, if_neg (by omega), if_pos (by omega)]
    · rw [hbody, if_neg (by omega), if_neg (by omega)]

/-- Witness for C6: three triggered factors (ATR ratio 0.1, fundamental
score 30, sentiment 0.6) with the historical-volatility factor false give
HIGH, and the zero-price exception case gives MEDIUM. -/
theorem c6_risk_levels_witness :
    assess_risk (some 10) (some 100) 30 (6/10) [] = .HIGH ∧
    assess_risk (some 1) (some 0) 90 0 [] = .MEDIUM := by
  constructor
  · have h := (c6_risk_levels (some 10) (some 100) 30 (6/10) []).2
      (by norm_num [atr_truthy])
    exact h.1 (by norm_num [countRiskFactors, atr_truthy, returns_std_gt,
      pct_returns, abs_of_nonneg])
  · exact (c6_risk_levels (some 1) (some 0) 90 0 []).1
      (by norm_num [atr_truthy])

/-- The pre-rounding confidence of the decision step always lies in
(35, 95]. -/
lemma decide_action_conf_bounds (w : ℚ) :
    35 < (decide_action w).2 ∧ (decide_action w).2 ≤ 95 := by
  have habs : (0:ℚ) ≤ |w| := abs_nonneg w
  unfold decide_action
  split_ifs with h1 h2
  · refine ⟨lt_min (by norm_num) (by nlinarith), min_le_left _ _⟩
  · refine ⟨lt_min (by norm_num) (by nlinarith), min_le_left _ _⟩
  · push_neg at h1 h2
    have hw : |w| < 30 := abs_lt.2 ⟨by linarith, h1⟩
    have hv : (35:ℚ) < 50 - |w| * 0.5 := by nlinarith
    have hmax : max (30:ℚ) (50 - |w| * 0.5) = 50 - |w| * 0.5 :=
      max_eq_right (by linarith)
    refine ⟨by rw [Prod.snd, hmax]; exact hv, ?_⟩
    rw [Prod.snd, hmax]
    nlinarith

/-- Decimal rounding to one place keeps a value of (35, 95] inside
[35, 95]. -/
lemma roundTo_one_bounds {v : ℚ} (h1 : 35 < v) (h2 : v ≤ 95) :
    35 ≤ roundTo 1 v ∧ roundTo 1 v ≤ 95 := by
  unfold roundTo
  rw [round_eq]
  norm_num
  have hlo : (350:ℤ) ≤ ⌊v * 10 + 1/2⌋ := by
    apply Int.le_floor.2
    push_cast
    linarith
  have hhi : ⌊v * 10 + 1/2⌋ < 951 := by
    apply Int.floor_lt.2
    push_cast
    linarith
  have hlo' : (350:ℚ) ≤ (⌊v * 10 + 1/2⌋ : ℚ) := by exact_mod_cast hlo
  have hhi' : (⌊v * 10 + 1/2⌋ : ℚ) ≤ 950 := by
    have : ⌊v * 10 + 1/2⌋ ≤ 950 := by omega
    exact_mod_cast this
  constructor <;> linarith

/-- C7: synthesis never propagates an exception: whenever the try body of
`generate_recommendation` raises (the `.error` case of
`recommendation_body`), the returned value is the degraded dictionary with
action HOLD, confidence 0 and the raised message; and on every input the
result is either a full recommendation or that degraded shape. -/
theorem c7_graceful_degradation (tech : Option TechAnalysisIn)
    (fund : Option FundAnalysisIn) (sent : Option SentAnalysisIn)
    (p : ℚ) (wk : ℕ) (closes : List ℚ) (vol : ℚ) :
    (∀ e, recommendation_body tech fund sent p wk closes vol = .error e →
      generate_recommendation tech fund sent p wk closes vol =
        .degraded .HOLD 0 e) ∧
    ((∃ r, generate_recommendation tech fund sent p wk closes vol = .ok r) ∨
     (∃ e, recommendation_body tech fund sent p wk closes vol = .error e ∧
       generate_recommendation tech fund sent p wk closes vol =
         .degraded .HOLD 0 e)) := by
  constructor
  · intro e he
    simp only [generate_recommendation, he]
  · cases tech <;> cases fund <;> cases sent <;>
      simp [generate_recommendation, recommendation_body]

/-- Witness for C7: passing `None` for the sentiment dict produces the
degraded HOLD result with confidence 0 and a populated error message. -/
theorem c7_graceful_degradation_witness :
    generate_recommendation (some {}) (some {}) none 100 2 [] 0 =
      .degraded .HOLD 0
        "AttributeError: NoneType object has no attribute get (sentiment_analysis)" :=
  (c7_graceful_degradation (some {}) (some {}) none 100 2 [] 0).1 _ rfl

/-- C10: on the non-error path the stored confidence always lies in
[35, 95]; in the HOLD branch the lower clamp `max 30 _` never binds because
`|w| < 30` forces `50 - |w| * 0.5 > 35`; and the degraded (error) path is
the only one carrying confidence 0, always with action HOLD. -/
theorem c10_confidence_range :
    (∀ (tech : TechAnalysisIn) (fund : FundAnalysisIn) (sent : SentAnalysisIn)
       (p : ℚ) (wk : ℕ) (closes : List ℚ) (vol : ℚ),
      35 ≤ (recommend_core tech fund sent p wk closes vol).confidence ∧
      (recommend_core tech fund sent p wk closes vol).confidence ≤ 95) ∧
    (∀ w : ℚ, |w| < 30 →
      max 30 (50 - |w| * 0.5) = 50 - |w| * 0.5 ∧ 35 < 50 - |w| * 0.5) ∧
    (∀ (tech : Option TechAnalysisIn) (fund : Option FundAnalysisIn)
       (sent : Option SentAnalysisIn) (p : ℚ) (wk : ℕ) (closes : List ℚ)
       (vol : ℚ) (a : Action) (c : ℚ) (e : String),
      generate_recommendation tech fund sent p wk closes vol =
        .degraded a c e → a = .HOLD ∧ c = 0) := by
  refine ⟨?_, ?_, ?_⟩
  · intro tech fund sent p wk closes vol
    have hb := decide_action_conf_bounds (weighted_score_calc
      (tech.signal_strength.getD 0) (fund.score.getD 50)
      (sent.overall_sentiment.getD 0))
    have hconf : (recommend_core tech fund sent p wk closes vol).confidence =
        roundTo 1 (decide_action (weighted_score_calc
          (tech.signal_strength.getD 0) (fund.score.getD 50)
          (sent.overall_sentiment.getD 0))).2 := rfl
    rw [hconf]
    exact roundTo_one_bounds hb.1 hb.2
  · intro w h
    have h05 : |w| * 0.5 < 15 := by nlinarith [abs_nonneg w]
    exact ⟨max_eq_right (by linarith), by linarith⟩
  · intro tech fund sent p wk closes vol a c e h
    cases hb : recommendation_body tech fund sent p wk closes vol with
    | ok r =>
        simp [generate_recommendation, hb] at h
    | error e2 =>
        simp [generate_recommendation, hb] at h
        exact ⟨h.1.symm, h.2.1.symm⟩

/-- Witness for C10: a concrete non-error recommendation has confidence 85,
inside [35, 95]. -/
theorem c10_confidence_range_witness :
    35 ≤ (recommend_core { signal_strength := some 60 } { score := some 80 }
      { overall_sentiment := some (3/10) } 100 2 [] 0).confidence ∧
    (recommend_core { signal_strength := some 60 } { score := some 80 }
      { overall_sentiment := some (3/10) } 100 2 [] 0).confidence ≤ 95 :=
  c10_confidence_range.1 { signal_strength := some 60 } { score := some 80 }
    { overall_sentiment := some (3/10) } 100 2 [] 0

/-- The strength formula value is always within [-100, 100]. -/
lemma strength_formula_bounds (b s n : ℕ) :
    -100 ≤ (if 0 < b + s + n then
        (((b : ℚ) - (s : ℚ)) / ((b + s + n : ℕ) : ℚ)) * 100 else 0) ∧
    (if 0 < b + s + n then
        (((b : ℚ) - (s : ℚ)) / ((b + s + n : ℕ) : ℚ)) * 100 else 0) ≤ 100 := by
  by_cases h : 0 < b + s + n
  · simp only [if_pos h]
    have ht : (0 : ℚ) < ((b + s + n : ℕ) : ℚ) := by exact_mod_cast h
    have hsn : (0 : ℚ) ≤ (s : ℚ) := Nat.cast_nonneg s
    have hbn : (0 : ℚ) ≤ (b : ℚ) := Nat.cast_nonneg b
    have hnn : (0 : ℚ) ≤ (n : ℚ) := Nat.cast_nonneg n
    have hcast : ((b + s + n : ℕ) : ℚ) = (b : ℚ) + (s : ℚ) + (n : ℚ) := by
      push_cast
      ring
    have h1 : (-1 : ℚ) ≤ ((b : ℚ) - (s : ℚ)) / ((b + s + n : ℕ) : ℚ) := by
      rw [le_div_iff₀ ht, hcast]
      linarith
    have h2 : ((b : ℚ) - (s : ℚ)) / ((b + s + n : ℕ) : ℚ) ≤ 1 := by
      rw [div_le_one ht, hcast]
      linarith
    constructor <;> linarith
  · simp only [if_neg h]
    norm_num

/-- C8: for every indicator mapping the generated signals satisfy
`signal_strength = (buy - sell) / (buy + sell + neutral) * 100` when the
total is positive and 0 otherwise; consequently the strength lies in
[-100, 100] and is 0 whenever buy and sell counts are equal. -/
theorem c8_signal_strength_invariant (ind : IndicatorSet) :
    ((generate_signals ind).signal_strength =
      if 0 < (generate_signals ind).buy_signals +
          (generate_signals ind).sell_signals +
          (generate_signals ind).neutral_signals then
        ((((generate_signals ind).buy_signals : ℚ) -
          ((generate_signals ind).sell_signals : ℚ)) /
         (((generate_signals ind).buy_signals +
           (generate_signals ind).sell_signals +
           (generate_signals ind).neutral_signals : ℕ) : ℚ)) * 100
      else 0) ∧
    -100 ≤ (generate_signals ind).signal_strength ∧
    (generate_signals ind).signal_strength ≤ 100 ∧
    ((generate_signals ind).buy_signals = (generate_signals ind).sell_signals →
      (generate_signals ind).signal_strength = 0) := by
  have hform : (generate_signals ind).signal_strength =
      if 0 < (generate_signals ind).buy_signals +
          (generate_signals ind).sell_signals +
          (generate_signals ind).neutral_signals then
        ((((generate_signals ind).buy_signals : ℚ) -
          ((generate_signals ind).sell_signals : ℚ)) /
         (((generate_signals ind).buy_signals +
           (generate_signals ind).sell_signals +
           (generate_signals ind).neutral_signals : ℕ) : ℚ)) * 100
      else 0 := rfl
  refine ⟨hform, ?_, ?_, ?_⟩
  · rw [hform]
    exact (strength_formula_bounds _ _ _).1
  · rw [hform]
    exact (strength_formula_bounds _ _ _).2
  · intro hbs
    rw [hform, hbs]
    split
    · rw [sub_self, zero_div, zero_mul]
    · rfl

/-- Witness for C8: the empty indicator mapping yields one neutral signal
(RSI defaulted to 50) and strength 0 = (0 - 0) / 1 * 100, with equal buy
and sell counts giving strength 0. -/
theorem c8_signal_strength_invariant_witness :
    (generate_signals {}).buy_signals = 0 ∧
    (generate_signals {}).sell_signals = 0 ∧
    (generate_signals {}).neutral_signals = 1 ∧
    (generate_signals {}).signal_strength = 0 := by
  have h := (c8_signal_strength_invariant {}).2.2.2 rfl
  exact ⟨rfl, rfl, rfl, h⟩

/-- Total article count across all categories of a news collection
(specification-side view for C3). -/
def newsTotalCount (news : List (String × List ArticleScores)) : ℕ :=
  (news.map fun e => e.2.length).sum

/-- Total of all combined article scores across all categories
(specification-side view for C3). -/
def newsTotalScore (news : List (String × List ArticleScores)) : ℚ :=
  (news.map fun e => (e.2.map analyze_article_combined).sum).sum

/-- One aggregation step adds the category's total combined score to the
running `total_sentiment` (the `avg * count` of line 110 equals the plain
sum of the category's scores). -/
lemma newsStep_score (acc : List (String × CategoryResult) × ℚ × ℕ)
    (e : String × List ArticleScores) :
    (newsStep acc e).2.1 = acc.2.1 + (e.2.map analyze_article_combined).sum := by
  obtain ⟨cats, ts, tc⟩ := acc
  obtain ⟨name, arts⟩ := e
  by_cases h : arts.isEmpty
  · have harts : arts = [] := List.isEmpty_iff.1 h
    subst harts
    simp [newsStep]
  · have harts : arts ≠ [] := fun hr => h (by simp [hr])
    have hlen : ((arts.map analyze_article_combined).length : ℚ) ≠ 0 := by
      rw [List.length_map]
      exact Nat.cast_ne_zero.2 fun hr => harts (List.length_eq_zero.1 hr)
    simp only [newsStep, if_neg h]
    rw [div_mul_cancel₀ _ hlen]

/-- One aggregation step adds the category's article count to the running
`total_count`. -/
lemma newsStep_count (acc : List (String × CategoryResult) × ℚ × ℕ)
    (e : String × List ArticleScores) :
    (newsStep acc e).2.2 = acc.2.2 + e.2.length := by
  obtain ⟨cats, ts, tc⟩ := acc
  obtain ⟨name, arts⟩ := e
  by_cases h : arts.isEmpty
  · have harts : arts = [] := List.isEmpty_iff.1 h
    subst harts
    simp [newsStep]
  · simp only [newsStep, if_neg h]
    rw [List.length_map]

/-- The fold accumulates exactly the global score and count totals. -/
lemma newsFold_total (news : List (String × List ArticleScores)) :
    ∀ acc : List (String × CategoryResult) × ℚ × ℕ,
      (news.foldl newsStep acc).2.1 = acc.2.1 + newsTotalScore news ∧
      (news.foldl newsStep acc).2.2 = acc.2.2 + newsTotalCount news := by
  induction news with
  | nil =>
      intro acc
      simp [newsTotalScore, newsTotalCount]
  | cons e t ih =>
      intro acc
      rw [List.foldl_cons]
      obtain ⟨ih1, ih2⟩ := ih (newsStep acc e)
      refine ⟨?_, ?_⟩
      · rw [ih1, newsStep_score]
        simp [newsTotalScore]
        ring
      · rw [ih2, newsStep_count]
        simp [newsTotalCount]
        omega

/-- The fold only ever appends to the category list. -/
lemma newsFold_cats_mono (news : List (String × List ArticleScores)) :
    ∀ (acc : List (String × CategoryResult) × ℚ × ℕ)
      (x : String × CategoryResult), x ∈ acc.1 →
      x ∈ (news.foldl newsStep acc).1 := by
  induction news with
  | nil =>
      intro acc x hx
      simpa using hx
  | cons e t ih =>
      intro acc x hx
      rw [List.foldl_cons]
      refine ih (newsStep acc e) x ?_
      obtain ⟨cats, ts, tc⟩ := acc
      obtain ⟨name, arts⟩ := e
      by_cases h : arts.isEmpty
      · simpa [newsStep, h] using hx
      · simp only [newsStep, if_neg h]
        exact List.mem_append_left _ hx

/-- Every non-empty input category lands in the result with the simple mean
of its combined scores and its article count. -/
lemma newsFold_mem (news : List (String × List ArticleScores)) :
    ∀ (acc : List (String × CategoryResult) × ℚ × ℕ)
      (name : String) (arts : List ArticleScores),
      (name, arts) ∈ news → arts ≠ [] →
      (name, ({ average_sentiment :=
                  (arts.map analyze_article_combined).sum / (arts.length : ℚ),
                count := arts.length } : CategoryResult)) ∈
        (news.foldl newsStep acc).1 := by
  induction news with
  | nil =>
      intro acc name arts hmem
      simp at hmem
  | cons e t ih =>
      intro acc name arts hmem hne
      rw [List.foldl_cons]
      rcases List.mem_cons.1 hmem with heq | hmem'
      · subst heq
        refine newsFold_cats_mono t _ _ ?_
        have h : ¬arts.isEmpty := fun hr => hne (List.isEmpty_iff.1 hr)
        obtain ⟨cats, ts, tc⟩ := acc
        simp only [newsStep, if_neg h, List.length_map]
        exact List.mem_append_right _ (List.mem_singleton.2 rfl)
      · exact ih (newsStep acc e) name arts hmem' hne

/-- C3: each non-empty category is reported with the simple mean of its
articles' combined scores and its count, and the overall sentiment is the
count-weighted mean across categories — the grand total of combined scores
over the grand article count — so a category with zero articles contributes
nothing to it. -/
theorem c3_sentiment_aggregation (news : List (String × List ArticleScores)) :
    (∀ (name : String) (arts : List ArticleScores),
      (name, arts) ∈ news → arts ≠ [] →
      (name, ({ average_sentiment :=
                  (arts.map analyze_article_combined).sum / (arts.length : ℚ),
                count := arts.length } : CategoryResult)) ∈
        (analyze_news_collection news).categories) ∧
    (0 < newsTotalCount news →
      (analyze_news_collection news).overall_sentiment =
        newsTotalScore news / (newsTotalCount news : ℚ)) := by
  constructor
  · intro name arts h1 h2
    exact newsFold_mem news ([], 0, 0) name arts h1 h2
  · intro hpos
    obtain ⟨hts, htc⟩ := newsFold_total news ([], 0, 0)
    have hts' : (news.foldl newsStep ([], 0, 0)).2.1 = newsTotalScore news := by
      rw [hts]
      ring
    have htc' : (news.foldl newsStep ([], 0, 0)).2.2 = newsTotalCount news := by
      rw [htc]
      simp
    show (if 0 < (news.foldl newsStep ([], 0, 0)).2.2 then
        (news.foldl newsStep ([], 0, 0)).2.1 /
          ((news.foldl newsStep ([], 0, 0)).2.2 : ℚ) else 0) =
      newsTotalScore news / (newsTotalCount news : ℚ)
    rw [hts', htc', if_pos hpos]

/-- Witness for C3: an empty global category, ten articles at combined
score 0.6 and ten at 0.2 give overall sentiment (6 + 2) / 20 = 0.4,
undiluted by the empty category. -/
theorem c3_sentiment_aggregation_witness :
    (analyze_news_collection
      [("global_news", []),
       ("indian_market_news", List.replicate 10 ⟨0.6, 0.6⟩),
       ("company_news", List.replicate 10 ⟨0.2, 0.2⟩)]).overall_sentiment
      = 0.4 := by
  have h := (c3_sentiment_aggregation
    [("global_news", []),
     ("indian_market_news", List.replicate 10 ⟨0.6, 0.6⟩),
     ("company_news", List.replicate 10 ⟨0.2, 0.2⟩)]).2
  rw [h (by norm_num [newsTotalCount])]
  norm_num [newsTotalScore, newsTotalCount, analyze_article_combined,
    List.map_replicate, List.sum_replicate, nsmul_eq_mul]

end StockSwing
